import Mathlib

/-!
Verification of the system-prompt influence analyzer (src/app.py).

The analyzer builds one analysis prompt from a system prompt and a
conversation log, dispatches it to one of two remote model providers,
and returns the raw response text together with the model id, or no
result on failure.  The remote API layer is modelled as an oracle
`Request → Except String String`, where `Except.error` models a raised
exception of the underlying client library and `Except.ok` models the
text extracted from a successful response.  Each call wrapper also
returns the list of requests it issued, so that theorems can speak
about the request shape sent to the remote layer.
-/

/-- A chat message as sent to either provider: a role string and a content string. -/
structure Message where
  role : String
  content : String
deriving DecidableEq

/-- A request issued to the remote layer.  The `anthropic` shape carries a model
id, a max-token bound and a message list (the source sets no temperature on this
path); the `openai` shape additionally carries a sampling temperature. -/
inductive Request where
  | anthropic (model : String) (max_tokens : Nat) (messages : List Message)
  | openai (model : String) (messages : List Message) (max_tokens : Nat) (temperature : ℚ)
deriving DecidableEq

/-- Text of the analysis prompt template before the `{system_prompt}` hole
(source lines 80-89), reproduced byte for byte from the f-string. -/
def prompt_before_system : String :=
  "\n        You are an expert in system prompt interpretability and discourse analysis.\n\n        Task: Carefully analyze the following system prompt and conversation log.\n        Identify which specific segments of the system prompt directly influenced\n        the agent\x27s responses. Also, analyze if any part of the user\x27s prior statements\n        influenced the agent\x27s next or subsequent responses.\n\n        System Prompt:\n        "

/-- Text of the analysis prompt template between the two holes (source lines 89-92). -/
def prompt_between : String :=
  "\n\n        Conversation Log:\n        "

/-- Text of the analysis prompt template after the `{conversation_log}` hole
(source lines 92-115). -/
def prompt_after_log : String :=
  "\n\n        For EACH agent response, provide:\n        1. The Agent\x27s Response\n        2. Relevant System Prompt Segments (quote exact text)\n        3. Influence Score (0-1.0)\n        4. Specific Evidence of Influence\n        5. Explanation of Semantic Connection\n        6. Any User Statements Influencing This Response\n\n        Response Format:\n        ```\n        Response 1:\n        - Agent Response: \"...\"\n        - Relevant Segments: [list of segments]\n        - Influence Score: X.XX\n        - Evidence: [direct quote mapping]\n        - Explanation: [semantic connection details]\n        - User Influence: [user statement(s) influencing response]\n        ```\n\n        Provide a comprehensive, analytical breakdown that shows\n        how the system prompt and user inputs guide the agent\x27s communication strategy.\n        "

/-- The rendered analysis prompt: the f-string of
`analyze_system_prompt_influence` (source lines 80-115), with the two input
texts substituted into their holes. -/
def analysis_prompt (system_prompt conversation_log : String) : String :=
  prompt_before_system ++ system_prompt ++ prompt_between ++ conversation_log ++ prompt_after_log

/-- The fixed system-role instruction of the OpenAI call path (source line 48). -/
def openai_system_instruction : String :=
  "You are an expert in analyzing AI system prompts and their influence on conversations."

/-- `analyze_with_anthropic` (source lines 29-40): builds the single-user-message
request with `max_tokens = 4000`, calls the remote layer, and on success returns
`(text, model)`; the `except` block catches any raised exception and returns
`(None, None)`.  The issued request is also returned as a trace. -/
def analyze_with_anthropic (api : Request → Except String String)
    (prompt model : String) : (Option String × Option String) × List Request :=
  let req := Request.anthropic model 4000 [{ role := "user", content := prompt }]
  match api req with
  | Except.ok text => ((some text, some model), [req])
  | Except.error _ => ((none, none), [req])

/-- `analyze_with_openai` (source lines 42-57): builds the two-message request
(fixed system instruction, then the user prompt) with `max_tokens = 4000` and
`temperature = 0.2`, calls the remote layer, and on success returns
`(text, model)`; the `except` block catches any raised exception and returns
`(None, None)`.  The issued request is also returned as a trace. -/
def analyze_with_openai (api : Request → Except String String)
    (prompt model : String) : (Option String × Option String) × List Request :=
  let req := Request.openai model
    [{ role := "system", content := openai_system_instruction },
     { role := "user", content := prompt }] 4000 (0.2 : ℚ)
  match api req with
  | Except.ok text => ((some text, some model), [req])
  | Except.error _ => ((none, none), [req])

/-- The success dictionary of `analyze_system_prompt_influence`
(source lines 124-127): `raw_analysis` holds the response text and
`model_used` holds the echoed model variable (an optional string in the
source, since the failure path sets it to `None`). -/
structure AnalysisResult where
  raw_analysis : String
  model_used : Option String
deriving DecidableEq

/-- `analyze_system_prompt_influence` (source lines 59-132): renders the
analysis prompt, dispatches on `selected_provider == "Anthropic"` (any other
provider string takes the OpenAI branch), then returns the success dictionary
when the returned text is truthy (not `None` and not empty) and `None`
otherwise.  The whole body sits in a `try` whose `except` returns `None`;
accordingly the value is `Except String (Option AnalysisResult)`, where
`Except.error` would model an exception propagated to the caller. -/
def analyze_system_prompt_influence (api : Request → Except String String)
    (system_prompt conversation_log selected_provider selected_model : String) :
    Except String (Option AnalysisResult) × List Request :=
  let prompt := analysis_prompt system_prompt conversation_log
  let call :=
    if selected_provider = "Anthropic" then
      analyze_with_anthropic api prompt selected_model
    else
      analyze_with_openai api prompt selected_model
  match call with
  | ((some analysis, model), trace) =>
      if analysis = "" then (Except.ok none, trace)
      else (Except.ok (some { raw_analysis := analysis, model_used := model }), trace)
  | ((none, _), trace) => (Except.ok none, trace)

/-- The analyzer object: its only data field is the provider catalog
`model_providers` built in `__init__` (source lines 14-27).  The two API
client handles are modelled by the `api` oracle passed to each call. -/
structure SystemPromptInfluenceAnalyzer where
  model_providers : List (String × List (String × String))
deriving DecidableEq

/-- `__init__` (source lines 6-27): the provider catalog as written. -/
def initAnalyzer : SystemPromptInfluenceAnalyzer :=
  { model_providers :=
      [("Anthropic",
         [("claude-3-opus-20240229", "Claude 3 Opus"),
          ("claude-3-sonnet-20240229", "Claude 3 Sonnet"),
          ("claude-3-haiku-20240307", "Claude 3 Haiku")]),
       ("OpenAI",
         [("gpt-4-0125-preview", "GPT-4 Turbo"),
          ("gpt-4", "GPT-4"),
          ("gpt-3.5-turbo", "GPT-3.5 Turbo"),
          ("gpt-4o", "GPT-4o"),
          ("gpt-4o-mini", "GPT-4o-Mini")])] }

/-- The method call `self.analyze_system_prompt_influence(...)` as a state
transformer on the analyzer object: the method body (source lines 59-132)
never assigns to `self`, so the object comes back unchanged alongside the
returned value and request trace. -/
def analyzeMethod (a : SystemPromptInfluenceAnalyzer)
    (api : Request → Except String String)
    (system_prompt conversation_log selected_provider selected_model : String) :
    (Except String (Option AnalysisResult) × List Request) × SystemPromptInfluenceAnalyzer :=
  (analyze_system_prompt_influence api system_prompt conversation_log
     selected_provider selected_model, a)

/-- `model` is a supported id of provider `provider` in the catalog. -/
def supportedPair (provider model : String) : Bool :=
  match initAnalyzer.model_providers.lookup provider with
  | some models => (models.lookup model).isSome
  | none => false

/-- Number of positions of `l` at which the pattern `pat` occurs as a
contiguous run (substring occurrences, overlaps counted). -/
def countOcc (pat : List Char) : List Char → Nat
  | [] => if pat = [] then 1 else 0
  | c :: rest =>
      (if pat.isPrefixOf (c :: rest) then 1 else 0) + countOcc pat rest

/-- The request a given provider/model/prompt triple makes the dispatcher
issue: the Anthropic shape when the provider string is `"Anthropic"`, the
OpenAI shape otherwise. -/
def requestFor (selected_provider selected_model prompt : String) : Request :=
  if selected_provider = "Anthropic" then
    Request.anthropic selected_model 4000 [{ role := "user", content := prompt }]
  else
    Request.openai selected_model
      [{ role := "system", content := openai_system_instruction },
       { role := "user", content := prompt }] 4000 (0.2 : ℚ)

theorem analyze_trace_eq (api : Request → Except String String)
    (sp cl provider model : String) :
    (analyze_system_prompt_influence api sp cl provider model).2 =
      [requestFor provider model (analysis_prompt sp cl)] := by
  unfold analyze_system_prompt_influence requestFor analyze_with_anthropic analyze_with_openai
  by_cases h : provider = "Anthropic" <;>
    simp only [h, if_true, if_false, if_pos, if_neg, not_false_iff] <;>
    rcases api _ with e | text <;>
    dsimp only <;>
    first
      | rfl
      | (split <;> rfl)

theorem analyze_value_eq (api : Request → Except String String)
    (sp cl provider model : String) :
    (analyze_system_prompt_influence api sp cl provider model).1 =
      match api (requestFor provider model (analysis_prompt sp cl)) with
      | Except.ok text =>
          if text = "" then Except.ok none
          else Except.ok (some { raw_analysis := text, model_used := some model })
      | Except.error _ => Except.ok none := by
  unfold analyze_system_prompt_influence requestFor analyze_with_anthropic analyze_with_openai
  by_cases h : provider = "Anthropic" <;>
    simp only [h, if_true, if_false, if_pos, if_neg, not_false_iff] <;>
    rcases api _ with e | text <;>
    dsimp only <;>
    first
      | rfl
      | (split <;> simp [*])

theorem countOcc_le_append (pat x y : List Char) :
    countOcc pat y ≤ countOcc pat (x ++ y) := by
  induction x with
  | nil => simp
  | cons c x ih =>
      simp only [List.cons_append, countOcc, List.append_eq]
      split <;> omega

theorem one_le_countOcc_self_append (pat t : List Char) :
    1 ≤ countOcc pat (pat ++ t) := by
  cases pat with
  | nil =>
      cases t with
      | nil => simp [countOcc]
      | cons c t => simp [countOcc, List.isPrefixOf]
  | cons p ps =>
      have h : (p :: ps).isPrefixOf ((p :: ps) ++ t) = true := by
        rw [ List.isPrefixOf_iff_prefix]
        exact ⟨t, rfl⟩
      simp only [List.cons_append, countOcc, List.append_eq] at h ⊢
      simp [h]

theorem one_le_countOcc_parts (pat s t : List Char) :
    1 ≤ countOcc pat (s ++ (pat ++ t)) :=
  le_trans (one_le_countOcc_self_append pat t) (countOcc_le_append pat s (pat ++ t))

theorem analysis_prompt_data (sp cl : String) :
    (analysis_prompt sp cl).data =
      prompt_before_system.data ++
        (sp.data ++ (prompt_between.data ++ (cl.data ++ prompt_after_log.data))) := by
  simp [analysis_prompt, String.data_append, List.append_assoc]

set_option maxRecDepth 20000

/-- C1: for every provider/model pair supported by the catalog and every two
non-empty input strings, `analyze_system_prompt_influence` returns either a
result dictionary or `None`; it never propagates an exception to its caller
(its value is always `Except.ok`, whatever the remote layer does). -/
theorem c1_analyze_never_raises (api : Request → Except String String)
    (sp cl provider model : String)
    (hsp : sp ≠ "") (hcl : cl ≠ "")
    (hsup : supportedPair provider model = true) :
    ∃ r : Option AnalysisResult,
      (analyze_system_prompt_influence api sp cl provider model).1 = Except.ok r := by
  rw [analyze_value_eq]
  rcases api (requestFor provider model (analysis_prompt sp cl)) with e | text
  · exact ⟨none, rfl⟩
  · by_cases ht : text = ""
    · exact ⟨none, by simp [ht]⟩
    · exact ⟨some { raw_analysis := text, model_used := some model }, by simp [ht]⟩

/-- Witness for C1 at a concrete supported pair and non-empty inputs. -/
theorem c1_analyze_never_raises_witness :
    ("Be polite." : String) ≠ "" ∧ ("Customer: hi" : String) ≠ "" ∧
    supportedPair "Anthropic" "claude-3-haiku-20240307" = true ∧
    ∃ r : Option AnalysisResult,
      (analyze_system_prompt_influence (fun _ => Except.ok "done")
        "Be polite." "Customer: hi" "Anthropic" "claude-3-haiku-20240307").1 =
        Except.ok r :=
  ⟨by decide, by decide, by decide,
   c1_analyze_never_raises (fun _ => Except.ok "done")
     "Be polite." "Customer: hi" "Anthropic" "claude-3-haiku-20240307"
     (by decide) (by decide) (by decide)⟩

/-- C2: the Anthropic branch issues exactly one request, holding a single
user-role message and `max_tokens = 4000` (the `Request.anthropic` shape
carries no temperature, matching the source, which sets none); the OpenAI
branch issues exactly one request, holding the fixed system-role instruction
followed by the user-role analysis prompt, with `max_tokens = 4000` and
`temperature = 0.2`. -/
theorem c2_request_shapes (api : Request → Except String String)
    (sp cl model : String) :
    (analyze_system_prompt_influence api sp cl "Anthropic" model).2 =
      [Request.anthropic model 4000
        [{ role := "user", content := analysis_prompt sp cl }]] ∧
    (analyze_system_prompt_influence api sp cl "OpenAI" model).2 =
      [Request.openai model
        [{ role := "system",
           content := "You are an expert in analyzing AI system prompts and their influence on conversations." },
         { role := "user", content := analysis_prompt sp cl }] 4000 (0.2 : ℚ)] := by
  refine ⟨?_, ?_⟩ <;> rw [analyze_trace_eq] <;>
    simp [requestFor, openai_system_instruction]

/-- C4: whenever the remote layer raises on the issued request, the operation
returns `None` (wrapped in `Except.ok`: no exception reaches the caller). -/
theorem c4_remote_failure_gives_none (api : Request → Except String String)
    (sp cl provider model e : String)
    (h : api (requestFor provider model (analysis_prompt sp cl)) = Except.error e) :
    (analyze_system_prompt_influence api sp cl provider model).1 = Except.ok none := by
  rw [analyze_value_eq, h]

/-- Witness for C4: a remote layer that always raises yields `None`. -/
theorem c4_remote_failure_gives_none_witness :
    ((fun _ : Request => (Except.error "network failure" : Except String String))
        (requestFor "Anthropic" "claude-3-opus-20240229"
          (analysis_prompt "Be polite." "Customer: hi")) =
      Except.error "network failure") ∧
    (analyze_system_prompt_influence (fun _ => Except.error "network failure")
        "Be polite." "Customer: hi" "Anthropic" "claude-3-opus-20240229").1 =
      Except.ok none :=
  ⟨rfl, c4_remote_failure_gives_none (fun _ => Except.error "network failure")
     "Be polite." "Customer: hi" "Anthropic" "claude-3-opus-20240229"
     "network failure" rfl⟩

/-- C5: every successful invocation returns a dictionary whose `model_used`
field is exactly the `selected_model` argument that was passed in. -/
theorem c5_model_used_echoes_selected (api : Request → Except String String)
    (sp cl provider model : String) (r : AnalysisResult)
    (h : (analyze_system_prompt_influence api sp cl provider model).1 =
      Except.ok (some r)) :
    r.model_used = some model := by
  rw [analyze_value_eq] at h
  rcases hc : api (requestFor provider model (analysis_prompt sp cl)) with e | text <;>
    rw [hc] at h
  · cases h
  · by_cases ht : text = ""
    · simp [ht] at h
    · simp only [ht, if_false, if_neg, Except.ok.injEq, Option.some.injEq] at h
      rw [← h]

/-- Witness for C5 at a concrete successful run. -/
theorem c5_model_used_echoes_selected_witness :
    (analyze_system_prompt_influence (fun _ => Except.ok "hello")
        "A" "B" "OpenAI" "gpt-4o").1 =
      Except.ok (some { raw_analysis := "hello", model_used := some "gpt-4o" }) ∧
    ({ raw_analysis := "hello", model_used := some "gpt-4o" } :
        AnalysisResult).model_used = some "gpt-4o" :=
  ⟨rfl, c5_model_used_echoes_selected (fun _ => Except.ok "hello")
     "A" "B" "OpenAI" "gpt-4o"
     { raw_analysis := "hello", model_used := some "gpt-4o" } rfl⟩

/-- C3 counterexample: with `system_prompt = "e"` and `conversation_log = "x"`
the rendered prompt does not contain each input exactly once as a substring:
the fixed template text itself contains the one-character inputs many times.
This refutes the claim as stated. -/
theorem c3_counterexample :
    ¬ (countOcc ("e".data) ((analysis_prompt "e" "x").data) = 1 ∧
       countOcc ("x".data) ((analysis_prompt "e" "x").data) = 1) := by
  decide

/-- C3 amended: the rendered analysis prompt contains the full `system_prompt`
string verbatim at least once and the full `conversation_log` string verbatim
at least once (as substring occurrences); further occurrences are possible
when an input also occurs inside the fixed template text or the other input. -/
theorem c3_prompt_contains_inputs (sp cl : String) :
    1 ≤ countOcc sp.data (analysis_prompt sp cl).data ∧
    1 ≤ countOcc cl.data (analysis_prompt sp cl).data := by
  constructor
  · rw [analysis_prompt_data]
    exact one_le_countOcc_parts sp.data prompt_before_system.data
      (prompt_between.data ++ (cl.data ++ prompt_after_log.data))
  · have h : (analysis_prompt sp cl).data =
        (prompt_before_system.data ++ sp.data ++ prompt_between.data) ++
          (cl.data ++ prompt_after_log.data) := by
      simp [analysis_prompt, String.data_append, List.append_assoc]
    rw [h]
    exact one_le_countOcc_parts cl.data _ prompt_after_log.data

/-- C6: for every input pair, the rendered prompt carries the instruction
lines naming the six per-response fields, with the influence score stated on
the 0-1.0 scale (field line 3) and the two-decimal format `X.XX`. -/
theorem c6_prompt_schema_fields (sp cl : String) :
    1 ≤ countOcc ("1. The Agent\x27s Response".data) (analysis_prompt sp cl).data ∧
    1 ≤ countOcc ("2. Relevant System Prompt Segments (quote exact text)".data)
      (analysis_prompt sp cl).data ∧
    1 ≤ countOcc ("3. Influence Score (0-1.0)".data) (analysis_prompt sp cl).data ∧
    1 ≤ countOcc ("4. Specific Evidence of Influence".data) (analysis_prompt sp cl).data ∧
    1 ≤ countOcc ("5. Explanation of Semantic Connection".data) (analysis_prompt sp cl).data ∧
    1 ≤ countOcc ("6. Any User Statements Influencing This Response".data)
      (analysis_prompt sp cl).data ∧
    1 ≤ countOcc ("- Influence Score: X.XX".data) (analysis_prompt sp cl).data := by
  have h : (analysis_prompt sp cl).data =
      (prompt_before_system.data ++ sp.data ++ prompt_between.data ++ cl.data) ++
        prompt_after_log.data := by
    simp [analysis_prompt, String.data_append, List.append_assoc]
  refine ⟨?_, ?_, ?_, ?_, ?_, ?_, ?_⟩ <;> rw [h] <;>
    exact le_trans (by decide) (countOcc_le_append _ _ _)

/-- C7: the provider catalog maps exactly the two provider names `"Anthropic"`
and `"OpenAI"` to their fixed model sets, is the value built at
initialization, and the analysis operation leaves it unchanged (the method
body never writes to the object). -/
theorem c7_catalog_static (a : SystemPromptInfluenceAnalyzer)
    (api : Request → Except String String) (sp cl provider model : String) :
    initAnalyzer.model_providers.map Prod.fst = ["Anthropic", "OpenAI"] ∧
    initAnalyzer.model_providers.lookup "Anthropic" =
      some [("claude-3-opus-20240229", "Claude 3 Opus"),
            ("claude-3-sonnet-20240229", "Claude 3 Sonnet"),
            ("claude-3-haiku-20240307", "Claude 3 Haiku")] ∧
    initAnalyzer.model_providers.lookup "OpenAI" =
      some [("gpt-4-0125-preview", "GPT-4 Turbo"), ("gpt-4", "GPT-4"),
            ("gpt-3.5-turbo", "GPT-3.5 Turbo"), ("gpt-4o", "GPT-4o"),
            ("gpt-4o-mini", "GPT-4o-Mini")] ∧
    (analyzeMethod a api sp cl provider model).2.model_providers =
      a.model_providers :=
  ⟨by decide, by decide, by decide, rfl⟩

/-- C8: any provider string other than `"Anthropic"` — including names outside
the catalog — takes the OpenAI call path: the run is identical to the one with
provider `"OpenAI"`, and the issued request is the OpenAI shape; no catalog
validation happens at call time. -/
theorem c8_nonanthropic_dispatches_openai (api : Request → Except String String)
    (sp cl model provider : String) (h : provider ≠ "Anthropic") :
    analyze_system_prompt_influence api sp cl provider model =
      analyze_system_prompt_influence api sp cl "OpenAI" model ∧
    (analyze_system_prompt_influence api sp cl provider model).2 =
      [Request.openai model
        [{ role := "system", content := openai_system_instruction },
         { role := "user", content := analysis_prompt sp cl }] 4000 (0.2 : ℚ)] := by
  constructor
  · unfold analyze_system_prompt_influence
    dsimp only
    rw [if_neg h, if_neg (by decide : ¬ ("OpenAI" = "Anthropic"))]
  · rw [analyze_trace_eq]
    simp [requestFor, h]

/-- Witness for C8 with the out-of-catalog provider name `"Gemini"`. -/
theorem c8_nonanthropic_dispatches_openai_witness :
    ("Gemini" : String) ≠ "Anthropic" ∧
    (analyze_system_prompt_influence (fun _ => Except.ok "out")
        "A" "B" "Gemini" "gpt-4o").2 =
      [Request.openai "gpt-4o"
        [{ role := "system", content := openai_system_instruction },
         { role := "user", content := analysis_prompt "A" "B" }] 4000 (0.2 : ℚ)] :=
  ⟨by decide, (c8_nonanthropic_dispatches_openai (fun _ => Except.ok "out")
     "A" "B" "gpt-4o" "Gemini" (by decide)).2⟩

/-- C9: a successful remote call that returns the empty string yields `None`,
and the whole run is indistinguishable (same value, same issued requests)
from a run whose remote layer raises. -/
theorem c9_empty_text_gives_none (api apiFail : Request → Except String String)
    (sp cl provider model e : String)
    (h : api (requestFor provider model (analysis_prompt sp cl)) = Except.ok "")
    (hf : apiFail (requestFor provider model (analysis_prompt sp cl)) =
      Except.error e) :
    (analyze_system_prompt_influence api sp cl provider model).1 = Except.ok none ∧
    analyze_system_prompt_influence api sp cl provider model =
      analyze_system_prompt_influence apiFail sp cl provider model := by
  have v1 : (analyze_system_prompt_influence api sp cl provider model).1 =
      Except.ok none := by
    rw [analyze_value_eq, h]
    simp
  have v2 : (analyze_system_prompt_influence apiFail sp cl provider model).1 =
      Except.ok none := by
    rw [analyze_value_eq, hf]
  exact ⟨v1, Prod.ext (v1.trans v2.symm)
    ((analyze_trace_eq api sp cl provider model).trans
      (analyze_trace_eq apiFail sp cl provider model).symm)⟩

/-- Witness for C9: an always-empty remote layer against an always-raising one. -/
theorem c9_empty_text_gives_none_witness :
    ((fun _ : Request => (Except.ok "" : Except String String))
        (requestFor "OpenAI" "gpt-4o" (analysis_prompt "A" "B")) = Except.ok "") ∧
    (analyze_system_prompt_influence (fun _ => Except.ok "")
        "A" "B" "OpenAI" "gpt-4o").1 = Except.ok none ∧
    analyze_system_prompt_influence (fun _ => Except.ok "") "A" "B" "OpenAI" "gpt-4o" =
      analyze_system_prompt_influence (fun _ => Except.error "boom")
        "A" "B" "OpenAI" "gpt-4o" :=
  ⟨rfl,
   (c9_empty_text_gives_none (fun _ => Except.ok "") (fun _ => Except.error "boom")
      "A" "B" "OpenAI" "gpt-4o" "boom" rfl rfl).1,
   (c9_empty_text_gives_none (fun _ => Except.ok "") (fun _ => Except.error "boom")
      "A" "B" "OpenAI" "gpt-4o" "boom" rfl rfl).2⟩

/-- C10: prompt rendering is deterministic — identical input strings render
character-for-character identical analysis prompts (rendering reads nothing
but its two inputs). -/
theorem c10_deterministic_rendering (sp1 cl1 sp2 cl2 : String)
    (hsp : sp1 = sp2) (hcl : cl1 = cl2) :
    analysis_prompt sp1 cl1 = analysis_prompt sp2 cl2 := by
  rw [hsp, hcl]

/-- Witness for C10 at concrete equal inputs. -/
theorem c10_deterministic_rendering_witness :
    ("A" : String) = "A" ∧ ("B" : String) = "B" ∧
    analysis_prompt "A" "B" = analysis_prompt "A" "B" :=
  ⟨rfl, rfl, c10_deterministic_rendering "A" "B" "A" "B" rfl rfl⟩
